import Mathlib

set_option linter.unusedVariables false

/-!
Shallow embedding of the solar-project-backend question-answering core
(app/models.py, app/rag.py, app/tools.py, app/agents.py, app/crud.py,
app/main.py).  SQLAlchemy tables are modelled as lists of records and
queries as filter / sort / take; the Gemini model call is an abstract
function parameter; a raised Python exception is an Except.error value.
Where a call count matters (classifier or model invocations), the
embedded function returns the count as an extra component.
-/

/-- Row of the document_chunks table (app/models.py, class DocumentChunk).
Columns: id (primary key), project_id, document_id, chunk_index, content.
The mapped class defines no page_number and no text attribute; accessing
either on the class or an instance raises AttributeError. -/
structure DocumentChunk where
  id : Nat
  project_id : Nat
  document_id : Nat
  chunk_index : Nat
  content : String
deriving DecidableEq, Repr

/-- Row of the documents table (app/models.py, class Document). -/
structure Document where
  id : Nat
  project_id : Nat
  file_name : String
  file_path : String
  uploaded_at : Nat
  status : String
deriving DecidableEq, Repr

/-- Row of the projects table (app/models.py, class Project). -/
structure Project where
  id : Nat
  name : String
  description : String
deriving DecidableEq, Repr

/-- Row of the qa_entries table (app/models.py, class QAEntry). -/
structure QAEntry where
  project_id : Nat
  question : String
  answer : String
deriving DecidableEq, Repr

/-- The persistent store: one list per table. -/
structure DB where
  projects : List Project
  documents : List Document
  chunks : List DocumentChunk
  qa_entries : List QAEntry
deriving DecidableEq, Repr

/-- Char-list version of Python s.startswith(t): first argument is the
haystack, second the candidate leading segment. -/
def strStartsWith : List Char → List Char → Bool
  | _, [] => true
  | [], _ :: _ => false
  | a :: s, b :: t => a == b && strStartsWith s t

/-- Char-list version of Python substring membership: hasSubstr hay needle
is true when needle occurs contiguously inside hay. -/
def hasSubstr : List Char → List Char → Bool
  | [], needle => needle.isEmpty
  | a :: t, needle => strStartsWith (a :: t) needle || hasSubstr t needle

/-- Python needle in hay for strings. -/
def pyIn (needle hay : String) : Bool := hasSubstr hay.data needle.data

/-- Python s.endswith(t). -/
def pyEndsWith (s t : String) : Bool := strStartsWith s.data.reverse t.data.reverse

/-- Python truthiness of an optional string setting: None and "" are falsy.
Models checks such as if not settings.GOOGLE_API_KEY. -/
def pyTruthyStr : Option String → Bool
  | none => false
  | some s => !s.isEmpty

/-- Python strict < on strings: lexicographic comparison by code point. -/
def strLtB : List Char → List Char → Bool
  | [], [] => false
  | [], _ :: _ => true
  | _ :: _, [] => false
  | a :: s, b :: t => if a < b then true else if b < a then false else strLtB s t

/-- Python non-strict string order used by sorted. -/
def pyStrLe (a b : String) : Bool := !(strLtB b.data a.data)

/-- Python sorted(set(xs)) for a list of strings: the distinct elements in
ascending lexicographic order. -/
def pySortedSet (xs : List String) : List String :=
  List.insertionSort (fun a b => pyStrLe a b = true) xs.dedup

/-- ASCII lower-casing of one character, as Python str.lower acts on the
ASCII range (all keywords and labels compared by the code are ASCII). -/
def charLower (c : Char) : Char :=
  if 65 ≤ c.toNat ∧ c.toNat ≤ 90 then Char.ofNat (c.toNat + 32) else c

/-- Python s.lower(). -/
def pyLower (s : String) : String := String.mk (s.data.map charLower)

/-- Characters removed by Python str.strip(). -/
def isPyWs (c : Char) : Bool :=
  c == ' ' || c == '\t' || c == '\n' || c == '\r' || c == '\x0b' || c == '\x0c'

/-- Python s.strip(). -/
def pyStrip (s : String) : String :=
  String.mk (((s.data.dropWhile isPyWs).reverse.dropWhile isPyWs).reverse)

/-- Python s.replace("\n", " "): the pattern is a single character, so this
is a character map. -/
def pyReplaceNl (s : String) : String :=
  String.mk (s.data.map (fun c => if c == '\n' then ' ' else c))

/-- Python (s or "").strip().replace("\n", " ") as applied to chunk text. -/
def pyCollapse (s : String) : String := pyReplaceNl (pyStrip s)

/-- Intent = Literal of qa, summary, diagram, other (app/agents.py line 16). -/
inductive Intent where
  | qa
  | summary
  | diagram
  | other
deriving DecidableEq, Repr

/-- Keyword list checked first by classify_intent (app/agents.py 29-41). -/
def diagram_keywords : List String :=
  ["one-line", "one line", "single line", "sld", "diagram", "schematic",
   "layout", "on the drawing", "in the drawing", "on the one line",
   "on the single line"]

/-- Keyword list checked second by classify_intent (app/agents.py 45-52). -/
def summary_keywords : List String :=
  ["summary", "overview", "high level", "explain this project",
   "what is this project", "give me an overview"]

/-- The classification prompt built in app/agents.py 63-72. -/
def classify_prompt (question : String) : String :=
  "You are a classifier for a solar engineering assistant. " ++
  "You must categorize the user\x27s intent into one of: " ++
  "\x27qa\x27 (question about project details), " ++
  "\x27summary\x27 (asking for a summary or overview), " ++
  "\x27diagram\x27 (question about the one-line, layout, or diagram), " ++
  "\x27other\x27.\n\n" ++
  "Question: " ++ question ++ "\n\n" ++
  "Return ONLY one of: qa, summary, diagram, other."

/-- classify_intent (app/agents.py 23-84).  The Gemini call is modelled by
the parameter llm: llm p = none models the try block raising, and
llm p = some t models (resp.text or "") evaluating to t.  The second
component of the result counts invocations of the model capability. -/
def classify_intent (apiKey : Option String) (llm : String → Option String)
    (question : String) : Intent × Nat :=
  let q := (pyLower question)
  if diagram_keywords.any (fun k => pyIn k q) then (Intent.diagram, 0)
  else if summary_keywords.any (fun k => pyIn k q) then (Intent.summary, 0)
  else if !(pyTruthyStr apiKey) then (Intent.qa, 0)
  else
    match llm (classify_prompt question) with
    | none => (Intent.qa, 1)
    | some t =>
      let content := pyLower (pyStrip t)
      if pyIn "diagram" content then (Intent.diagram, 1)
      else if pyIn "summary" content then (Intent.summary, 1)
      else if pyIn "qa" content then (Intent.qa, 1)
      else (Intent.other, 1)

/-- C3: classify_intent applies its rules in strict order: a question
containing "diagram" case-insensitively is classified diagram under every
configuration; a question containing "summary" or "overview" and matching
no diagram keyword is classified summary; and when no model credential is
configured and no keyword matches, the result is qa with zero invocations
of the external model capability. -/
theorem classify_intent_rule_order (apiKey : Option String)
    (llm : String → Option String) (question : String) :
    (pyIn "diagram" (pyLower question) = true →
      (classify_intent apiKey llm question).1 = Intent.diagram) ∧
    ((pyIn "summary" (pyLower question) = true ∨
        pyIn "overview" (pyLower question) = true) →
      (∀ k ∈ diagram_keywords, pyIn k (pyLower question) = false) →
      (classify_intent apiKey llm question).1 = Intent.summary) ∧
    (pyTruthyStr apiKey = false →
      (∀ k ∈ diagram_keywords, pyIn k (pyLower question) = false) →
      (∀ k ∈ summary_keywords, pyIn k (pyLower question) = false) →
      classify_intent apiKey llm question = (Intent.qa, 0)) := by
  refine ⟨?_, ?_, ?_⟩
  · intro h
    have hd : diagram_keywords.any (fun k => pyIn k (pyLower question)) = true :=
      List.any_eq_true.mpr ⟨"diagram", by simp [diagram_keywords], h⟩
    simp [classify_intent, hd]
  · intro hso hnone
    have hd : diagram_keywords.any (fun k => pyIn k (pyLower question)) = false := by
      rw [List.any_eq_false]
      intro k hk
      simp [hnone k hk]
    have hs : summary_keywords.any (fun k => pyIn k (pyLower question)) = true := by
      rcases hso with h | h
      · exact List.any_eq_true.mpr ⟨"summary", by simp [summary_keywords], h⟩
      · exact List.any_eq_true.mpr ⟨"overview", by simp [summary_keywords], h⟩
    simp [classify_intent, hd, hs]
  · intro hkey hdnone hsnone
    have hd : diagram_keywords.any (fun k => pyIn k (pyLower question)) = false := by
      rw [List.any_eq_false]
      intro k hk
      simp [hdnone k hk]
    have hs : summary_keywords.any (fun k => pyIn k (pyLower question)) = false := by
      rw [List.any_eq_false]
      intro k hk
      simp [hsnone k hk]
    simp [classify_intent, hd, hs, hkey]

/-- Witness for C3 at concrete questions and an unconfigured model. -/
theorem classify_intent_rule_order_witness :
    (classify_intent none (fun _ => none) "Show the DIAGRAM please").1 = Intent.diagram ∧
    (classify_intent (some "key") (fun _ => none) "Please give a Summary").1 = Intent.summary ∧
    classify_intent none (fun _ => none) "What is the inverter size?" = (Intent.qa, 0) := by
  refine ⟨?_, ?_, ?_⟩
  · exact (classify_intent_rule_order none (fun _ => none) _).1 (by decide)
  · exact (classify_intent_rule_order (some "key") (fun _ => none) _).2.1
      (Or.inl (by decide)) (by decide)
  · exact (classify_intent_rule_order none (fun _ => none) _).2.2 (by decide)
      (by decide) (by decide)

/-- db.query(Project).filter(Project.id == project_id).first()
(app/crud.py 42-48, get_project). -/
def get_project (db : DB) (project_id : Nat) : Option Project :=
  db.projects.find? (fun p => p.id == project_id)

/-- ORDER BY DocumentChunk.id ASC: a stable sort on the primary key. -/
def sortChunksById (l : List DocumentChunk) : List DocumentChunk :=
  List.insertionSort (fun a b => a.id ≤ b.id) l

/-- One context line per chunk (app/rag.py 66-69). -/
def chunkLine (c : DocumentChunk) : String :=
  "(Project " ++ toString c.project_id ++ ", Doc " ++ toString c.document_id ++
  ", ChunkIndex " ++ toString c.chunk_index ++ ") " ++ pyCollapse c.content

/-- The source dict built per chunk (app/rag.py 70-76).  A Python dict is
modelled as an association list so that lookups of absent keys can be
expressed. -/
def sourceRecord (c : DocumentChunk) : List (String × Nat) :=
  [("project_id", c.project_id), ("document_id", c.document_id),
   ("chunk_index", c.chunk_index)]

/-- The chunk list _load_project_chunks works from (app/rag.py 38-57):
chunks of the project ordered by ascending id then limited; if that is
empty, the same query over the whole table. -/
def selectedChunks (db : DB) (project_id max_chunks : Nat) : List DocumentChunk :=
  let projChunks :=
    (sortChunksById (db.chunks.filter (fun c => c.project_id == project_id))).take max_chunks
  if projChunks.isEmpty then (sortChunksById db.chunks).take max_chunks else projChunks

/-- _load_project_chunks (app/rag.py 26-79): the selected chunks rendered
as context lines plus their source dicts; ("", []) when nothing at all is
stored. -/
def load_project_chunks (db : DB) (project_id max_chunks : Nat) :
    String × List (List (String × Nat)) :=
  let chunks := selectedChunks db project_id max_chunks
  if chunks.isEmpty then ("", [])
  else
    (String.intercalate "\n\n" (chunks.map chunkLine), chunks.map sourceRecord)

/-- Which arm of generate_answer_from_context produced the result. -/
inductive GenBranch where
  | notConfigured
  | emptyContext
  | modelCall
deriving DecidableEq, Repr

/-- Fixed degraded-mode message of app/rag.py 87-90. -/
def not_configured_msg : String :=
  "AI is not configured yet (missing GOOGLE_API_KEY). " ++
  "Please configure the backend to enable RAG answers."

/-- Fixed empty-context message of app/rag.py 93-96. -/
def no_index_msg : String :=
  "I couldn\x27t find any indexed text for this project yet. " ++
  "Try uploading project documents or checking that chunking worked."

/-- The role framing of app/rag.py 102-106. -/
def rag_system_prompt : String :=
  "You are a senior electrical engineer specializing in utility-scale solar PV, " ++
  "BESS, and substation design. Answer based ONLY on the provided context from " ++
  "project documents. If the answer is not in the context, say you don\x27t know."

/-- The full prompt of app/rag.py 108-113. -/
def rag_user_prompt (question context : String) : String :=
  rag_system_prompt ++ "\n\n" ++
  "Context from project documents:\n" ++ context ++ "\n\n" ++
  "Question: " ++ question ++ "\n\n" ++
  "Answer in 2–5 clear sentences, and keep it practical for an engineer."

/-- generate_answer_from_context (app/rag.py 82-116).  llm models
model.generate_content followed by (resp.text or "").  The second
component records which arm produced the answer. -/
def generate_answer_from_context (apiKey : Option String) (llm : String → String)
    (question context : String) : String × GenBranch :=
  if !(pyTruthyStr apiKey) then (not_configured_msg, GenBranch.notConfigured)
  else if context == "" then (no_index_msg, GenBranch.emptyContext)
  else (llm (rag_user_prompt question context), GenBranch.modelCall)

/-- C1 (amended, limit at least 1 for the fallback half): when a project
has no chunks, load_project_chunks returns ("", []) on an empty chunk
table, and otherwise falls back to the first max_chunks chunks of the
whole table in ascending id order, all belonging to other projects, with a
non-empty result. -/
theorem load_project_chunks_fallback (db : DB) (pid N : Nat)
    (hproj : db.chunks.filter (fun c => c.project_id == pid) = []) :
    (db.chunks = [] → load_project_chunks db pid N = ("", [])) ∧
    (db.chunks ≠ [] → 1 ≤ N →
      load_project_chunks db pid N =
        (String.intercalate "\n\n" (((sortChunksById db.chunks).take N).map chunkLine),
         ((sortChunksById db.chunks).take N).map sourceRecord) ∧
      ((sortChunksById db.chunks).take N) ≠ [] ∧
      List.Sorted (fun a b => a.id ≤ b.id) ((sortChunksById db.chunks).take N) ∧
      ∀ c ∈ (sortChunksById db.chunks).take N, c.project_id ≠ pid) := by
  have hperm : (sortChunksById db.chunks).Perm db.chunks :=
    List.perm_insertionSort _ db.chunks
  constructor
  · intro hnil
    simp [load_project_chunks, selectedChunks, hproj, hnil, sortChunksById]
  · intro hne hN
    have htake : ((sortChunksById db.chunks).take N) ≠ [] := by
      rw [Ne, List.take_eq_nil_iff]
      push_neg
      refine ⟨by omega, ?_⟩
      intro hsnil
      exact hne (hperm.symm.trans (hsnil ▸ List.Perm.refl _) |>.eq_nil)
    have hsortnil : sortChunksById ([] : List DocumentChunk) = [] := rfl
    have hsel : selectedChunks db pid N = (sortChunksById db.chunks).take N := by
      rw [selectedChunks]
      simp only [hproj, hsortnil, List.take_nil, List.isEmpty_nil, if_true]
    have heval : load_project_chunks db pid N =
        (String.intercalate "\n\n" (((sortChunksById db.chunks).take N).map chunkLine),
         ((sortChunksById db.chunks).take N).map sourceRecord) := by
      rw [load_project_chunks, hsel]
      simp [List.isEmpty_iff, htake]
    refine ⟨heval, htake, ?_, ?_⟩
    · haveI : IsTotal DocumentChunk (fun a b => a.id ≤ b.id) :=
        ⟨fun a b => Nat.le_total a.id b.id⟩
      haveI : IsTrans DocumentChunk (fun a b => a.id ≤ b.id) :=
        ⟨fun a b c hab hbc => Nat.le_trans hab hbc⟩
      exact ((List.sorted_insertionSort _ db.chunks).sublist (List.take_sublist _ _))
    · intro c hc
      have hmem : c ∈ db.chunks :=
        hperm.mem_iff.mp ((List.take_sublist _ _).mem hc)
      have := List.filter_eq_nil_iff.mp hproj c hmem
      simpa using this

/-- A store whose only chunk belongs to project 2, used to exercise the
cross-project fallback for project 1. -/
def fallbackDemoDB : DB :=
  { projects := [{ id := 1, name := "P1", description := "" }],
    documents := [],
    chunks := [{ id := 1, project_id := 2, document_id := 7, chunk_index := 0,
                 content := "other project text" }],
    qa_entries := [] }

/-- C1 counterexample: project 1 has no chunks and another project has
one, yet with limit 0 the function returns the empty result, so the
claim, quantified over every limit N, fails at N = 0. -/
theorem load_project_chunks_fallback_cex :
    fallbackDemoDB.chunks.filter (fun c => c.project_id == 1) = [] ∧
    fallbackDemoDB.chunks ≠ [] ∧
    load_project_chunks fallbackDemoDB 1 0 = ("", []) := by
  refine ⟨by decide, by decide, ?_⟩
  decide

/-- Witness for the amended C1 at limit 50 on fallbackDemoDB. -/
theorem load_project_chunks_fallback_witness :
    load_project_chunks fallbackDemoDB 1 50 =
      (String.intercalate "\n\n"
        (((sortChunksById fallbackDemoDB.chunks).take 50).map chunkLine),
       ((sortChunksById fallbackDemoDB.chunks).take 50).map sourceRecord) ∧
    ((sortChunksById fallbackDemoDB.chunks).take 50) ≠ [] :=
  ⟨((load_project_chunks_fallback fallbackDemoDB 1 50 (by decide)).2
      (by decide) (by decide)).1,
   ((load_project_chunks_fallback fallbackDemoDB 1 50 (by decide)).2
      (by decide) (by decide)).2.1⟩

/-- C10: in generate_answer_from_context the credential check precedes the
empty-context check: with no usable credential the fixed not-configured
message is returned whatever the context, and the missing-index guidance
arm is taken exactly when a credential is configured and the context is
the empty string. -/
theorem generate_answer_check_order (apiKey : Option String)
    (llm : String → String) (question context : String) :
    (pyTruthyStr apiKey = false →
      generate_answer_from_context apiKey llm question context =
        (not_configured_msg, GenBranch.notConfigured)) ∧
    ((generate_answer_from_context apiKey llm question context).2 =
        GenBranch.emptyContext ↔ (pyTruthyStr apiKey = true ∧ context = "")) := by
  constructor
  · intro h
    simp [generate_answer_from_context, h]
  · by_cases hk : pyTruthyStr apiKey
    · by_cases hc : context = "" <;>
        simp [generate_answer_from_context, hk, hc]
    · simp only [Bool.not_eq_true] at hk
      simp [generate_answer_from_context, hk]

/-- Witness for C10: unconfigured key wins over empty context, and a
configured key with empty context reaches the guidance arm. -/
theorem generate_answer_check_order_witness :
    generate_answer_from_context none (fun _ => "model says") "q" "" =
      (not_configured_msg, GenBranch.notConfigured) ∧
    (generate_answer_from_context (some "key") (fun _ => "model says") "q" "").2 =
      GenBranch.emptyContext :=
  ⟨(generate_answer_check_order none (fun _ => "model says") "q" "").1 (by decide),
   ((generate_answer_check_order (some "key") (fun _ => "model says") "q" "").2).mpr
     ⟨by decide, rfl⟩⟩

/-- A raised Python exception. -/
inductive PyError where
  | attributeError (msg : String)
deriving DecidableEq, Repr

deriving instance DecidableEq for Except

/-- Fixed message of app/tools.py line 40. -/
def no_chunks_msg : String :=
  "No document chunks are indexed for this project yet."

/-- The AttributeError raised by reading c.text on a DocumentChunk row:
the mapped class names its text column content (app/models.py 73), while
app/tools.py 42 and 70 read c.text. -/
def chunk_text_attr_error : PyError :=
  PyError.attributeError "DocumentChunk object has no attribute text"

/-- quick_project_summary (app/tools.py 27-43): the first 25 chunks of the
project by ascending id; with no rows the fixed message, otherwise the
comprehension [c.text.strip()...] touches the missing text attribute and
raises on the first row. -/
def quick_project_summary (db : DB) (project_id : Nat) : Except PyError String :=
  let chunks :=
    (sortChunksById (db.chunks.filter (fun c => c.project_id == project_id))).take 25
  if chunks.isEmpty then Except.ok no_chunks_msg
  else Except.error chunk_text_attr_error

/-- The summarizer prompt of app/agents.py 118-130 (system framing plus
context and request). -/
def summarizer_prompt (base_context question : String) : String :=
  "You are a senior electrical engineer summarizing a utility-scale solar project. " ++
  "You will be given some raw excerpts from project documents. " ++
  "Write a clear, concise summary or respond to the user\x27s request, " ++
  "but only use the information provided in the context.\n\n" ++
  "Context excerpts:\n" ++ base_context ++ "\n\n" ++
  "User request: " ++ question ++ "\n\n" ++
  "Write a 1–3 paragraph summary that is useful for an engineer reviewing this project."

/-- project_summarizer_agent (app/agents.py 108-133): base context from
quick_project_summary; returned verbatim when no credential is
configured, otherwise framed through the model. -/
def project_summarizer_agent (db : DB) (apiKey : Option String)
    (llm : String → String) (project_id : Nat) (question : String) :
    Except PyError String :=
  match quick_project_summary db project_id with
  | Except.error e => Except.error e
  | Except.ok base_context =>
    if !(pyTruthyStr apiKey) then Except.ok base_context
    else Except.ok (llm (summarizer_prompt base_context question))

/-- The AttributeError raised when analyze_diagram_page builds its query:
app/tools.py 61 filters on models.DocumentChunk.page_number, a column the
DocumentChunk model does not define, so the query construction raises
before any row is read, for every input. -/
def page_number_attr_error : PyError :=
  PyError.attributeError "type object DocumentChunk has no attribute page_number"

/-- analyze_diagram_page (app/tools.py 46-76).  The intended behavior per
its own docstring is to concatenate the chunks of one document page, or
return a no-chunks-found message; the filter on the nonexistent
page_number column makes every call raise instead. -/
def analyze_diagram_page (db : DB) (project_id document_id page_number : Nat) :
    Except PyError String :=
  Except.error page_number_attr_error

/-- C7 (code bug): load_page_context is claimed to return a descriptive
no-chunks-found message without raising, and otherwise the joined chunk
texts; the code instead raises AttributeError on every input because the
DocumentChunk model has no page_number column (and its rows no text
attribute), so neither described outcome is reachable. -/
theorem analyze_diagram_page_always_raises (db : DB)
    (project_id document_id page_number : Nat) :
    analyze_diagram_page db project_id document_id page_number =
      Except.error page_number_attr_error := rfl

/-- A project whose store holds exactly one chunk (the spec scenario:
Inverter rated 2000kVA). -/
def summaryDemoDB : DB :=
  { projects := [{ id := 1, name := "Solar One", description := "" }],
    documents := [{ id := 1, project_id := 1, file_name := "spec.pdf",
                    file_path := "uploads/1/spec.pdf", uploaded_at := 10,
                    status := "ready" }],
    chunks := [{ id := 1, project_id := 1, document_id := 1, chunk_index := 0,
                 content := "Inverter rated 2000kVA" }],
    qa_entries := [] }

/-- C5 (code bug): with no credential configured and a store holding
exactly one chunk, the Summary handler is claimed to return that chunk's
stored text verbatim; the code instead raises AttributeError, because
quick_project_summary reads c.text while the DocumentChunk column is
named content.  Only the zero-chunk path returns normally. -/
theorem project_summarizer_attr_bug :
    project_summarizer_agent summaryDemoDB none (fun _ => "model summary") 1
        "Give me an overview" = Except.error chunk_text_attr_error ∧
    quick_project_summary summaryDemoDB 1 ≠
      Except.ok "Inverter rated 2000kVA" ∧
    project_summarizer_agent { summaryDemoDB with chunks := [] } none
        (fun _ => "model summary") 1 "Give me an overview" =
      Except.ok no_chunks_msg := by
  refine ⟨by decide, by decide, by decide⟩

/-- rag_answer_for_project (app/tools.py 10-24) through
answer_question_with_rag (app/rag.py 119-134): answer and sources from
load_project_chunks with max_chunks 50. -/
def rag_answer_for_project (db : DB) (apiKey : Option String)
    (llm : String → String) (project_id : Nat) (question : String) :
    String × List (List (String × Nat)) :=
  let cs := load_project_chunks db project_id 50
  ((generate_answer_from_context apiKey llm question cs.1).1, cs.2)

/-- Python s.get(k) on a source dict. -/
def pyDictGet (d : List (String × Nat)) (k : String) : Option Nat :=
  (d.find? (fun p => p.1 == k)).map (fun p => p.2)

/-- How an optional value renders inside a Python f-string: None prints
as the four characters None. -/
def pyShowOptNat : Option Nat → String
  | none => "None"
  | some n => toString n

/-- One citation of app/agents.py 97-99, built from s.get("document_id")
and s.get("page_number"). -/
def citationOf (s : List (String × Nat)) : String :=
  "Doc " ++ pyShowOptNat (pyDictGet s "document_id") ++
  " Page " ++ pyShowOptNat (pyDictGet s "page_number")

/-- project_qa_agent (app/agents.py 89-103): the RAG answer, plus a
Sources line of sorted deduplicated citations when sources are
non-empty. -/
def project_qa_agent (db : DB) (apiKey : Option String) (llm : String → String)
    (project_id : Nat) (question : String) : String :=
  let tool_result := rag_answer_for_project db apiKey llm project_id question
  let answer := tool_result.1
  let sources := tool_result.2
  if sources.isEmpty then answer
  else
    answer ++ "\n\nSources: " ++
      String.intercalate ", " (pySortedSet (sources.map citationOf))

/-- Every source record handed out by _load_project_chunks is the dict of
one chunk, holding exactly the keys project_id, document_id and
chunk_index. -/
theorem mem_load_sources (db : DB) (pid N : Nat) (s : List (String × Nat))
    (hs : s ∈ (load_project_chunks db pid N).2) : ∃ c, s = sourceRecord c := by
  simp only [load_project_chunks] at hs
  split at hs
  · simp at hs
  · obtain ⟨c, -, rfl⟩ := List.mem_map.mp hs
    exact ⟨c, rfl⟩

/-- Store with one chunk for project 1 living in document 3. -/
def qaDemoChunk : DocumentChunk :=
  { id := 1, project_id := 1, document_id := 3, chunk_index := 0,
    content := "hello world" }

def qaDemoDB : DB :=
  { projects := [{ id := 1, name := "P1", description := "" }],
    documents := [], chunks := [qaDemoChunk], qa_entries := [] }

/-- C4 counterexample: the Q&A handler renders the missing page_number
key of the source dict as the literal text None, so the citation is
Doc 3 Page None rather than Doc 3 followed by the position recorded in
the source record (its chunk_index, 0). -/
theorem project_qa_sources_cex :
    project_qa_agent qaDemoDB (some "key") (fun _ => "Answer.") 1 "q" =
      "Answer.\n\nSources: Doc 3 Page None" ∧
    pyDictGet (sourceRecord qaDemoChunk) "page_number" = none ∧
    citationOf (sourceRecord qaDemoChunk) ≠
      "Doc 3 Page " ++ toString qaDemoChunk.chunk_index := by
  refine ⟨by decide, rfl, by decide⟩

/-- C4 (amended): with a non-empty source list the Q&A answer ends with a
Sources line holding the sorted, deduplicated, comma-separated citations,
and every citation reads Doc d Page None, because the source dicts carry
no page_number key for the f-string lookup to find. -/
theorem project_qa_sources_line (db : DB) (apiKey : Option String)
    (llm : String → String) (pid : Nat) (question : String)
    (hs : (load_project_chunks db pid 50).2 ≠ []) :
    project_qa_agent db apiKey llm pid question =
      (generate_answer_from_context apiKey llm question
          (load_project_chunks db pid 50).1).1 ++
        "\n\nSources: " ++
        String.intercalate ", "
          (pySortedSet (((load_project_chunks db pid 50).2).map citationOf)) ∧
    ∀ s ∈ (load_project_chunks db pid 50).2,
      pyDictGet s "page_number" = none ∧
      citationOf s =
        "Doc " ++ pyShowOptNat (pyDictGet s "document_id") ++
          " Page " ++ pyShowOptNat none := by
  constructor
  · simp [project_qa_agent, rag_answer_for_project, List.isEmpty_iff, hs]
  · intro s hsm
    obtain ⟨c, rfl⟩ := mem_load_sources db pid 50 s hsm
    exact ⟨rfl, rfl⟩

/-- Witness for the amended C4 on qaDemoDB. -/
theorem project_qa_sources_line_witness :
    project_qa_agent qaDemoDB (some "key") (fun _ => "Answer.") 1 "q" =
      (generate_answer_from_context (some "key") (fun _ => "Answer.") "q"
          (load_project_chunks qaDemoDB 1 50).1).1 ++
        "\n\nSources: " ++
        String.intercalate ", "
          (pySortedSet (((load_project_chunks qaDemoDB 1 50).2).map citationOf)) :=
  (project_qa_sources_line qaDemoDB (some "key") (fun _ => "Answer.") 1 "q"
    (by decide)).1

/-- db.query(Document).filter(project_id).order_by(uploaded_at desc).all()
(app/agents.py 146-151): newest first. -/
def project_docs_desc (db : DB) (project_id : Nat) : List Document :=
  List.insertionSort (fun a b => b.uploaded_at ≤ a.uploaded_at)
    (db.documents.filter (fun d => d.project_id == project_id))

/-- d.file_name.lower().endswith(".pdf") (app/agents.py 152). -/
def isPdfDoc (d : Document) : Bool := pyEndsWith (pyLower d.file_name) ".pdf"

/-- Fixed message of app/agents.py 154-157. -/
def upload_prompt_msg : String :=
  "I couldn\x27t find any PDF documents for this project to analyze as a diagram. " ++
  "Please upload a one-line or layout drawing as a PDF."

/-- The tail of diagram_agent once a document id is resolved
(app/agents.py 160-170): analyze the page, then return the text raw when
no credential is configured, else feed it to the shared context-answering
step.  The Nat counts model invocations. -/
def diagram_agent_with_doc (db : DB) (apiKey : Option String)
    (llm : String → String) (project_id : Nat) (question : String)
    (document_id page_number : Nat) : Except PyError String × Nat :=
  match analyze_diagram_page db project_id document_id page_number with
  | Except.error e => (Except.error e, 0)
  | Except.ok diagram_text =>
    if !(pyTruthyStr apiKey) then (Except.ok diagram_text, 0)
    else
      let r := generate_answer_from_context apiKey llm question diagram_text
      (Except.ok r.1, if r.2 = GenBranch.modelCall then 1 else 0)

/-- diagram_agent (app/agents.py 138-170): with no explicit document id,
pick the newest PDF of the project; with none available return the fixed
upload prompt. -/
def diagram_agent (db : DB) (apiKey : Option String) (llm : String → String)
    (project_id : Nat) (question : String) (document_id : Option Nat)
    (page_number : Nat) : Except PyError String × Nat :=
  match document_id with
  | none =>
    match ((project_docs_desc db project_id).filter isPdfDoc).head? with
    | none => (Except.ok upload_prompt_msg, 0)
    | some d =>
      diagram_agent_with_doc db apiKey llm project_id question d.id page_number
  | some did =>
    diagram_agent_with_doc db apiKey llm project_id question did page_number

/-- C6: for a project without any PDF-named document the diagram handler,
called without an explicit document id, returns the fixed upload prompt
with zero model invocations; and whenever some PDF document exists, the
resolved document is a PDF of the project carrying the maximal upload
time, and the handler behaves as if called on that document's id. -/
theorem diagram_agent_pdf_selection (db : DB) (apiKey : Option String)
    (llm : String → String) (pid : Nat) (question : String) :
    ((∀ d ∈ db.documents, d.project_id = pid → isPdfDoc d = false) →
      diagram_agent db apiKey llm pid question none 1 =
        (Except.ok upload_prompt_msg, 0)) ∧
    (∀ d0 ∈ db.documents, d0.project_id = pid → isPdfDoc d0 = true →
      ∃ dsel, ((project_docs_desc db pid).filter isPdfDoc).head? = some dsel ∧
        dsel ∈ db.documents ∧ dsel.project_id = pid ∧ isPdfDoc dsel = true ∧
        (∀ d2 ∈ db.documents, d2.project_id = pid → isPdfDoc d2 = true →
          d2.uploaded_at ≤ dsel.uploaded_at) ∧
        diagram_agent db apiKey llm pid question none 1 =
          diagram_agent db apiKey llm pid question (some dsel.id) 1) := by
  have hperm : (project_docs_desc db pid).Perm
      (db.documents.filter (fun d => d.project_id == pid)) :=
    List.perm_insertionSort _ _
  have hmem_iff : ∀ d, d ∈ project_docs_desc db pid ↔
      (d ∈ db.documents ∧ d.project_id = pid) := by
    intro d
    rw [hperm.mem_iff, List.mem_filter]
    simp
  constructor
  · intro hno
    have hfilter : ((project_docs_desc db pid).filter isPdfDoc) = [] := by
      rw [List.filter_eq_nil_iff]
      intro d hd
      obtain ⟨hdd, hdp⟩ := (hmem_iff d).mp hd
      simp [hno d hdd hdp]
    simp [diagram_agent, hfilter]
  · intro d0 hd0 hd0p hd0pdf
    have hd0mem : d0 ∈ (project_docs_desc db pid).filter isPdfDoc :=
      List.mem_filter.mpr ⟨(hmem_iff d0).mpr ⟨hd0, hd0p⟩, hd0pdf⟩
    obtain ⟨dsel, rest, hcons⟩ :=
      List.exists_cons_of_ne_nil (List.ne_nil_of_mem hd0mem)
    have hsorted : List.Pairwise (fun a b => b.uploaded_at ≤ a.uploaded_at)
        ((project_docs_desc db pid).filter isPdfDoc) := by
      haveI : IsTotal Document (fun a b => b.uploaded_at ≤ a.uploaded_at) :=
        ⟨fun a b => (Nat.le_total b.uploaded_at a.uploaded_at)⟩
      haveI : IsTrans Document (fun a b => b.uploaded_at ≤ a.uploaded_at) :=
        ⟨fun a b c hab hbc => Nat.le_trans hbc hab⟩
      exact List.Pairwise.sublist (List.filter_sublist _)
        (List.sorted_insertionSort _ _)
    have hselmem : dsel ∈ (project_docs_desc db pid).filter isPdfDoc := by
      rw [hcons]; exact List.mem_cons_self _ _
    obtain ⟨hseld, hselpdf⟩ := List.mem_filter.mp hselmem
    obtain ⟨hseldocs, hselpid⟩ := (hmem_iff dsel).mp hseld
    refine ⟨dsel, by rw [hcons]; rfl, hseldocs, hselpid,  hselpdf, ?_, ?_⟩
    · intro d2 hd2 hd2p hd2pdf
      have hd2mem : d2 ∈ (project_docs_desc db pid).filter isPdfDoc :=
        List.mem_filter.mpr ⟨(hmem_iff d2).mpr ⟨hd2, hd2p⟩, hd2pdf⟩
      rw [hcons] at hd2mem
      rcases List.mem_cons.mp hd2mem with h | h
      · rw [h]
      · rw [hcons] at hsorted
        exact List.rel_of_pairwise_cons hsorted h
    · have hhead : ((project_docs_desc db pid).filter isPdfDoc).head? = some dsel := by
        rw [hcons]; rfl
      simp [diagram_agent, hhead]

/-- A project whose only document is not a PDF. -/
def noPdfDemoDB : DB :=
  { projects := [{ id := 1, name := "P1", description := "" }],
    documents := [{ id := 1, project_id := 1, file_name := "notes.docx",
                    file_path := "uploads/1/notes.docx", uploaded_at := 4,
                    status := "ready" }],
    chunks := [], qa_entries := [] }

def diagDocOld : Document :=
  { id := 1, project_id := 1, file_name := "old-layout.PDF",
    file_path := "uploads/1/old-layout.PDF", uploaded_at := 5,
    status := "ready" }

def diagDocNew : Document :=
  { id := 2, project_id := 1, file_name := "new-oneline.pdf",
    file_path := "uploads/1/new-oneline.pdf", uploaded_at := 9,
    status := "ready" }

def diagDocWord : Document :=
  { id := 3, project_id := 1, file_name := "report.docx",
    file_path := "uploads/1/report.docx", uploaded_at := 20,
    status := "ready" }

/-- Two PDFs (upload times 5 and 9) and a newer non-PDF (time 20). -/
def diagDemoDB : DB :=
  { projects := [{ id := 1, name := "P1", description := "" }],
    documents := [diagDocOld, diagDocNew, diagDocWord],
    chunks := [], qa_entries := [] }

/-- Witness for C6: the PDF-less project gets the upload prompt, and in
diagDemoDB the handler resolves to document 2, the newest PDF. -/
theorem diagram_agent_pdf_selection_witness :
    diagram_agent noPdfDemoDB none (fun _ => "m") 1 "show the one-line" none 1 =
      (Except.ok upload_prompt_msg, 0) ∧
    diagram_agent diagDemoDB none (fun _ => "m") 1 "show the one-line" none 1 =
      diagram_agent diagDemoDB none (fun _ => "m") 1 "show the one-line"
        (some diagDocNew.id) 1 := by
  constructor
  · exact (diagram_agent_pdf_selection noPdfDemoDB none (fun _ => "m") 1
      "show the one-line").1 (by decide)
  · obtain ⟨dsel, hhead, -, -, -, -, heq⟩ :=
      (diagram_agent_pdf_selection diagDemoDB none (fun _ => "m") 1
        "show the one-line").2 diagDocNew (by decide) (by decide) (by decide)
    have h2 : ((project_docs_desc diagDemoDB 1).filter isPdfDoc).head? =
        some diagDocNew := by decide
    rw [hhead] at h2
    rw [Option.some.inj h2] at heq
    exact heq

/-- The uniform response record of orchestrator_agent (app/agents.py
182-186 etc.).  The dict key is agent in the code; the spec names the
same field handler. -/
structure OrchResult where
  answer : String
  agent : String
  intent : Intent
deriving DecidableEq, Repr

/-- Disclaimer prefixed on the fallback path (app/agents.py 204-207). -/
def unsure_preamble : String :=
  "I wasn\x27t sure if this was a summary or diagram question, " ++
  "so I answered it as a project Q&A.\n\n"

/-- orchestrator_agent (app/agents.py 175-208).  cllm is the model
capability as the classifier sees it, llm as the handlers see it; the Nat
counts classifier invocations; a handler exception propagates as
Except.error. -/
def orchestrator_agent (db : DB) (apiKey : Option String)
    (cllm : String → Option String) (llm : String → String)
    (project_id : Nat) (question : String) :
    Except PyError OrchResult × Nat :=
  match get_project db project_id with
  | none =>
    (Except.ok { answer := "Project not found.", agent := "orchestrator",
                 intent := Intent.other }, 0)
  | some _ =>
    match (classify_intent apiKey cllm question).1 with
    | Intent.diagram =>
      match diagram_agent db apiKey llm project_id question none 1 with
      | (Except.ok a, _) =>
        (Except.ok { answer := a, agent := "diagram_agent",
                     intent := Intent.diagram }, 1)
      | (Except.error e, _) => (Except.error e, 1)
    | Intent.summary =>
      match project_summarizer_agent db apiKey llm project_id question with
      | Except.ok a =>
        (Except.ok { answer := a, agent := "project_summarizer_agent",
                     intent := Intent.summary }, 1)
      | Except.error e => (Except.error e, 1)
    | Intent.qa =>
      (Except.ok { answer := project_qa_agent db apiKey llm project_id question,
                   agent := "project_qa_agent", intent := Intent.qa }, 1)
    | Intent.other =>
      (Except.ok { answer := unsure_preamble ++
                     project_qa_agent db apiKey llm project_id question,
                   agent := "project_qa_agent", intent := Intent.other }, 1)

/-- C2: when the project id names no stored project, the orchestrator
returns exactly the Project not found record (tag orchestrator, intent
other — the record field the code calls agent is what the spec calls
handler) and the classifier is invoked zero times. -/
theorem orchestrator_absent_project (db : DB) (apiKey : Option String)
    (cllm : String → Option String) (llm : String → String)
    (pid : Nat) (question : String) (habs : get_project db pid = none) :
    orchestrator_agent db apiKey cllm llm pid question =
      (Except.ok { answer := "Project not found.", agent := "orchestrator",
                   intent := Intent.other }, 0) := by
  simp [orchestrator_agent, habs]

/-- A store with no projects at all. -/
def emptyDB : DB := { projects := [], documents := [], chunks := [], qa_entries := [] }

/-- Witness for C2 on the empty store. -/
theorem orchestrator_absent_project_witness :
    orchestrator_agent emptyDB (some "key") (fun _ => some "diagram")
        (fun _ => "m") 7 "any question at all" =
      (Except.ok { answer := "Project not found.", agent := "orchestrator",
                   intent := Intent.other }, 0) :=
  orchestrator_absent_project emptyDB (some "key") (fun _ => some "diagram")
    (fun _ => "m") 7 "any question at all" (by decide)

/-- The response of the ask endpoint: an HTTPException or a created row. -/
inductive AskResponse where
  | httpError (code : Nat) (detail : String)
  | created (entry : QAEntry)
deriving DecidableEq, Repr

/-- The degraded answer text built in app/main.py 203-207 when the agent
pipeline raises, with the exception rendered into the f-string. -/
def agent_error_msg (e : String) : String :=
  "I ran into an error while running the AI agents. " ++
  "Backend is up, but the AI pipeline failed with:\n" ++ e

/-- result.get("answer", ...) on success, the error text on exception
(app/main.py 198-207). -/
def orch_final_answer : Except String OrchResult → String
  | Except.ok result => result.answer
  | Except.error e => agent_error_msg e

/-- ask_question (app/main.py 183-215).  The orchestrator call is
abstracted by its outcome orchOutcome: Except.error e models the call
raising an exception rendered as e.  Whatever the outcome, a QAEntry is
created after the project and non-empty-question guards pass. -/
def ask_question (db : DB) (project_id : Nat) (question : String)
    (orchOutcome : Except String OrchResult) : AskResponse × DB :=
  match get_project db project_id with
  | none => (AskResponse.httpError 404 "Project not found", db)
  | some _ =>
    let q := pyStrip question
    if q == "" then (AskResponse.httpError 400 "Question cannot be empty", db)
    else
      let qa : QAEntry := { project_id := project_id, question := q,
                            answer := orch_final_answer orchOutcome }
      (AskResponse.created qa,
       { db with qa_entries := db.qa_entries ++ [qa] })

/-- C8: for an existing project and a non-blank question, every
orchestrator outcome — normal answer or raised exception — ends in a
persisted QAEntry appended to the store: the exception is rendered into
the readable error text by orch_final_answer and never re-raised, so no
asked question is lost. -/
theorem ask_question_always_persists (db : DB) (pid : Nat)
    (question : String) (orchOutcome : Except String OrchResult)
    (hproj : get_project db pid ≠ none) (hq : pyStrip question ≠ "") :
    ask_question db pid question orchOutcome =
      (AskResponse.created
        { project_id := pid, question := pyStrip question,
          answer := orch_final_answer orchOutcome },
       { db with qa_entries := db.qa_entries ++
          [{ project_id := pid, question := pyStrip question,
             answer := orch_final_answer orchOutcome }] }) := by
  obtain ⟨p, hp⟩ := Option.ne_none_iff_exists'.mp hproj
  simp [ask_question, hp, hq]

/-- Store holding just project 1, for the ask endpoint witness. -/
def askDemoDB : DB :=
  { projects := [{ id := 1, name := "P1", description := "" }],
    documents := [], chunks := [], qa_entries := [] }

/-- Witness for C8: a raising pipeline still persists the question with
the readable error answer. -/
theorem ask_question_always_persists_witness :
    ask_question askDemoDB 1 "  What rating?  " (Except.error "Gemini down") =
      (AskResponse.created
        { project_id := 1, question := pyStrip "  What rating?  ",
          answer := orch_final_answer (Except.error "Gemini down") },
       { askDemoDB with qa_entries := askDemoDB.qa_entries ++
          [{ project_id := 1, question := pyStrip "  What rating?  ",
             answer := orch_final_answer (Except.error "Gemini down") }] }) :=
  ask_question_always_persists askDemoDB 1 "  What rating?  "
    (Except.error "Gemini down") (by decide) (by decide)

/-- The chunk-text collection step of upload_document (app/main.py
134-138): the extraction locator of every (locator, text) pair is
discarded and blank texts are dropped after stripping. -/
def upload_chunk_texts (chunks_data : List (Nat × String)) : List String :=
  (chunks_data.map (fun p => pyStrip p.2)).filter (fun t => !(t == ""))

/-- create_document_chunks (app/crud.py 254-265): one row per text, with
chunk_index taken from enumerate (counting from 0) and ids assigned by
the store from nextId on. -/
def create_document_chunks (nextId project_id document_id : Nat)
    (chunks : List String) : List DocumentChunk :=
  chunks.enum.map (fun p =>
    { id := nextId + p.1, project_id := project_id,
      document_id := document_id, chunk_index := p.1, content := p.2 })

/-- C9 counterexample: a one-page PDF extraction yielding locator 1 is
stored as a chunk whose position field (chunk_index) is 0 — neither
positive nor equal to the extraction locator, which the upload path never
persists. -/
theorem create_chunks_locator_cex :
    (create_document_chunks 1 5 9 (upload_chunk_texts [(1, "hello")])).map
        (fun c => c.chunk_index) = [0] ∧
    ¬ 1 ≤ (0 : Nat) := by
  refine ⟨by decide, by decide⟩

/-- C9 (amended): the rows stored for a document carry chunk_index equal
to the 0-based position of their text among the stripped non-empty
extracted texts, with the matching content; the extraction locator is
discarded by the upload path. -/
theorem create_chunks_chunk_index (nextId pid did : Nat)
    (chunks_data : List (Nat × String)) :
    (create_document_chunks nextId pid did
        (upload_chunk_texts chunks_data)).map (fun c => c.chunk_index) =
      List.range (upload_chunk_texts chunks_data).length ∧
    (create_document_chunks nextId pid did
        (upload_chunk_texts chunks_data)).map (fun c => c.content) =
      upload_chunk_texts chunks_data := by
  constructor
  · rw [create_document_chunks, List.map_map]
    have : ((fun c : DocumentChunk => c.chunk_index) ∘
        (fun p : Nat × String =>
          ({ id := nextId + p.1, project_id := pid, document_id := did,
             chunk_index := p.1, content := p.2 } : DocumentChunk))) =
        Prod.fst := by
      funext p
      rfl
    rw [this, List.enum_map_fst]
  · rw [create_document_chunks, List.map_map]
    have : ((fun c : DocumentChunk => c.content) ∘
        (fun p : Nat × String =>
          ({ id := nextId + p.1, project_id := pid, document_id := did,
             chunk_index := p.1, content := p.2 } : DocumentChunk))) =
        Prod.snd := by
      funext p
      rfl
    rw [this, List.enum_map_snd]
